import Mathlib

set_option maxHeartbeats 1000000

/-!
Shallow embedding of the EduConnect User Service (Flask + MongoDB microservice).

Modelled components:
  * `app/services/user_service.py` — `MongoUserRepository.create`, `.update`,
    `UserService.update_user`;
  * `app/blueprints/users.py` — `create_profile`, `add_subscription`,
    `remove_serie_from_all_users`;
  * `app/middleware/auth.py` — `_verify_token` under the module's
    effective `jwt` binding (auth.py:12 rebinds `jwt` to `jose.jwt`);
  * `app/utils/cache.py` — `_build_cache_key` and the two key builders;
  * `app/utils/json_encoder.py` — `serialize_doc`.

Documents are association lists of string keys to `Value`s; Python `dict`s
always have distinct keys, which theorems take as a hypothesis where needed.
-/

/-- JSON/BSON-like values stored in MongoDB documents.  `vDate` is an abstract
UTC timestamp (a clock reading, standing for a Python `datetime`), and `vOid`
is an opaque database identifier (`ObjectId`) carrying its hex string. -/
inductive Value where
  | vNull : Value
  | vBool : Bool → Value
  | vInt : Int → Value
  | vStr : String → Value
  | vDate : Nat → Value
  | vOid : String → Value
  | vArr : List Value → Value
  | vDoc : List (String × Value) → Value
deriving Repr

/-- A MongoDB document: an ordered map from string keys to values. -/
abbrev Document : Type := List (String × Value)

/-- Python truthiness of a value (`if not x`): `None`, `False`, `0`, `""`,
`[]` and `{}` are falsy; datetimes and ObjectIds are always truthy. -/
def pyTruthy : Value → Bool
  | .vNull => false
  | .vBool b => b
  | .vInt n => decide (n ≠ 0)
  | .vStr s => decide (s ≠ "")
  | .vDate _ => true
  | .vOid _ => true
  | .vArr xs => !xs.isEmpty
  | .vDoc fs => !fs.isEmpty

/-- Python truthiness of an optional string (absent or `""` is falsy). -/
def pyTruthyStr : Option String → Bool
  | none => false
  | some s => decide (s ≠ "")

/-- `doc.get(k)`: first value bound to key `k`, if any. -/
def getField : Document → String → Option Value
  | [], _ => none
  | (k0, v0) :: rest, k => if k0 = k then some v0 else getField rest k

/-- `doc[k] = v`: replace the value at key `k` in place, or append the new
binding at the end — Python `dict` assignment, and MongoDB `$set` of one
field. -/
def setField : Document → String → Value → Document
  | [], k, v => [(k, v)]
  | (k0, v0) :: rest, k, v =>
      if k0 = k then (k, v) :: rest else (k0, v0) :: setField rest k v

/-- MongoDB `$set` with an update document: set each field in order. -/
def applySet (doc : Document) (updates : Document) : Document :=
  List.foldl (fun d p => setField d p.1 p.2) doc updates

/-- Key sanitization of `MongoUserRepository.update`: drop the immutable keys
`_id`, `userId` and `createdAt` from the caller-supplied data. -/
def sanitize (data : Document) : Document :=
  data.filter (fun p => !(p.1 == "_id" || p.1 == "userId" || p.1 == "createdAt"))

/-- `MongoUserRepository.update` applied to the stored document that matches
the user id: `$set` the sanitized data, then stamp `updatedAt` with the
current clock reading `t`.  Returns the post-update document. -/
def update (doc : Document) (data : Document) (t : Nat) : Document :=
  setField (applySet doc (sanitize data)) "updatedAt" (.vDate t)

/-- Errors raised by `MongoUserRepository.create`: the explicit
`ValueError("userId is required")`, and the unhandled `AttributeError` from
`data.get("email").split('@')[0]` when the email value is not a string. -/
inductive CreateErr where
  | invalidInput : CreateErr
  | attributeError : CreateErr
deriving Repr, DecidableEq

/-- Python `data.get("email").split('@')[0]`: the local part of the email
before the first `'@'`.  The default argument of `data.get("username", ...)`
is evaluated eagerly, so a missing or non-string email raises even when a
username is supplied. -/
def emailLocalPart : Option Value → Except CreateErr String
  | some (.vStr s) => .ok (s.toList.takeWhile (fun c => c ≠ '@')).asString
  | _ => .error .attributeError

/-- `MongoUserRepository.create`.  `existing` is the record currently stored
under the data's `userId` (if any) and `t` the current clock reading.  On
success returns the stored document together with a flag that is `true`
exactly when a fresh record was inserted. -/
def create (existing : Option Document) (data : Document) (t : Nat) :
    Except CreateErr (Document × Bool) :=
  match getField data "userId" with
  | none => .error .invalidInput
  | some idv =>
    if pyTruthy idv = false then .error .invalidInput
    else
      match existing with
      | some doc => .ok (update doc data t, false)
      | none =>
        match emailLocalPart (getField data "email") with
        | .error e => .error e
        | .ok defaultUsername =>
          .ok ([("_id", idv),
                ("email", (getField data "email").getD .vNull),
                ("name", (getField data "name").getD .vNull),
                ("username", (getField data "username").getD (.vStr defaultUsername)),
                ("gender", (getField data "gender").getD (.vStr "")),
                ("birthdate", (getField data "birthdate").getD (.vStr "")),
                ("role", .vStr "student"),
                ("avatar", .vStr ""),
                ("bio", .vStr ""),
                ("cognito_sub", idv),
                ("serie_subscribe", .vArr []),
                ("createdAt", .vDate t),
                ("updatedAt", .vDate t),
                ("lastLogin", .vDate t)], true)

/-- The store visible after a `create` call: the error paths run before
`insert_one`, so a failing call leaves the store untouched. -/
def createResultingStore (existing : Option Document) (data : Document) (t : Nat) :
    Option Document :=
  match create existing data t with
  | .ok (doc, _) => some doc
  | .error _ => existing

/-- `POST /api/v1/users/profile` (`create_profile`): returns the HTTP status
of the response envelope together with the store after the call.  The
catch-all `except` maps any unhandled repository error to the generic
`_error_response` with default status 500. -/
def create_profile (body : Document) (existing : Option Document) (t : Nat) :
    Nat × Option Document :=
  match getField body "userId" with
  | none => (400, existing)
  | some idv =>
    if pyTruthy idv = false then (400, existing)
    else
      match existing with
      | some doc => (409, some doc)
      | none =>
        match create none body t with
        | .ok (doc, _) => (201, some doc)
        | .error .invalidInput => (500, none)
        | .error .attributeError => (500, none)

/-- `UserService.update_user` on an existing stored record `doc`.
`avatarFile` says whether an avatar file was supplied, `uploadResult` is what
`MediaServiceClient.upload_thumbnail` returned (`none` on failure — it
swallows its own errors), and `deleteFails` says whether deleting the old
avatar raised (the exception is caught and only logged). -/
def update_user (doc : Document) (data : Document) (avatarFile : Bool)
    (uploadResult : Option String) (deleteFails : Bool) (t : Nat) : Document :=
  let effectiveData :=
    if avatarFile then
      match uploadResult with
      | some url => setField data "avatar" (.vStr url)
      | none => data
    else data
  update doc effectiveData t

/-- The slice of a stored user record that the subscription endpoints touch:
the `serie_subcribe` array (note the historical typo in the field name) and
the `updatedAt` stamp. -/
structure SubUser where
  subs : List String
  updatedAt : Nat
deriving Repr, DecidableEq

/-- MongoDB `$addToSet`: append the element at the end unless present. -/
def addToSet (xs : List String) (x : String) : List String :=
  if x ∈ xs then xs else xs ++ [x]

/-- `POST /api/v1/users/<user_id>/subscriptions` (`add_subscription`).
`serieId` is the `serie_id` of the request body (`none` when absent), `user`
the stored record for the path's user id, `t` the current clock reading.
Returns the response status and the store after the call. -/
def add_subscription (serieId : Option String) (user : Option SubUser) (t : Nat) :
    Nat × Option SubUser :=
  match serieId with
  | none => (400, user)
  | some sid =>
    if sid = "" then (400, user)
    else
      match user with
      | none => (404, none)
      | some u =>
        if sid ∈ u.subs then (409, some u)
        else (200, some ⟨addToSet u.subs sid, t⟩)

/-- A sequence of `add_subscription` calls (body and clock per call), folded
over the store. -/
def runAddCalls (calls : List (Option String × Nat)) (user : Option SubUser) :
    Option SubUser :=
  List.foldl (fun st c => (add_subscription c.1 st c.2).2) user calls

/-- A stored user record as seen by the bulk-unsubscribe endpoint. -/
structure URec where
  id : String
  subs : List String
  updatedAt : Nat
deriving Repr, DecidableEq

/-- Effect of the bulk `update_many` on one record: a matched record (its
`serie_subcribe` contains the id) has every occurrence `$pull`ed and its
`updatedAt` stamped; an unmatched record is untouched. -/
def pullSerie (sid : String) (t : Nat) (u : URec) : URec :=
  if sid ∈ u.subs then
    { u with subs := u.subs.filter (fun s => s != sid), updatedAt := t }
  else u

/-- `DELETE /api/v1/users/subscriptions/serie/<serie_id>`
(`remove_serie_from_all_users`): `update_many` applies `pullSerie` to every
record and reports the number of matched (hence modified) records. -/
def remove_serie_from_all_users (users : List URec) (sid : String) (t : Nat) :
    List URec × Nat :=
  (users.map (pullSerie sid t),
   (users.filter (fun u => sid ∈ u.subs)).length)

/-- The parts of the inbound request that cache keys are built from. -/
structure FlaskRequest where
  method : String
  path : String
  query_string : String
deriving Repr, DecidableEq

/-- `_build_cache_key` from `app/utils/cache.py`.  `gUserId` models
`getattr(g, 'user', {}).get('userId', 'anonymous')`: `none` when no identity
context is present (no `g.user`, or no `userId` in it). -/
def _build_cache_key (scope : String) (includeUser : Bool)
    (gUserId : Option String) (req : FlaskRequest) : String :=
  let effectiveScope :=
    if includeUser then "user_" ++ gUserId.getD "anonymous" else scope
  "educonnect" ++ ":" ++ effectiveScope ++ ":" ++ req.method ++ ":" ++
    req.path ++ ":" ++ req.query_string

/-- `make_cache_key_public`: key for the public cache decorator. -/
def make_cache_key_public (req : FlaskRequest) : String :=
  _build_cache_key "public" false none req

/-- `make_cache_key_with_user`: key for the per-user cache decorator. -/
def make_cache_key_with_user (gUserId : Option String) (req : FlaskRequest) :
    String :=
  _build_cache_key "user" true gUserId req

/-- The claims of a decoded token that `_verify_token` would inspect. -/
structure TokenPayload where
  token_use : Option String
  client_id : Option String
  sub : Option String
deriving Repr, DecidableEq

/-- Python exceptions escaping `_verify_token` under the module's effective
bindings: the TypeError of a bad call, and the AttributeError of a missing
module attribute (which is what actually escapes, raised while the
TypeError is being handled). -/
inductive PyError where
  | typeError : PyError
  | attributeError : PyError
deriving Repr, DecidableEq

/-- Parameter names of `jose.jwt.decode` (`token` and the required `key`
positionally, then `algorithms`, `options`, `audience`, `issuer`,
`subject`, `access_token`).  auth.py:10 imports PyJWT as `jwt`, but
auth.py:12 (`from jose import jwt, jwk`) rebinds `jwt` to `jose.jwt` for
the whole module, so every `jwt.decode` call in `_verify_token` is
resolved against this signature — not PyJWT's. -/
def joseDecodeKeywords : List String :=
  ["key", "algorithms", "options", "audience", "issuer", "subject",
   "access_token"]

/-- Whether a Python call to `jose.jwt.decode` enters the function body:
the required positional `key` must be supplied and every keyword argument
must be in the signature; otherwise the call raises TypeError at the call
site. -/
def joseDecodeCallOk (hasKey : Bool) (kwargs : List String) : Bool :=
  hasKey && kwargs.all (fun kw => joseDecodeKeywords.contains kw)

/-- The keyword names `_verify_token` passes to the main decode at
auth.py:159 via `key=...` and `**decode_options` (built at
auth.py:133-155): `key`, always `algorithms` and the PyJWT-only `leeway`,
plus `issuer` when one is configured, plus `audience` for an id token with
a configured client id and `options` in every other case. -/
def verifyDecodeKwargNames (hasIssuer : Bool) (tokenUse : Option String)
    (appClientId : Option String) : List String :=
  ["key", "algorithms", "leeway"] ++
    (if hasIssuer then ["issuer"] else []) ++
    (if tokenUse = some "id" then
       if pyTruthyStr appClientId = true then ["audience"] else ["options"]
     else ["options"])

/-- `_verify_token` (auth.py:97-178) under the module's effective `jwt`
binding (`jose.jwt`), for a well-formed token whose signing key resolves —
the only path that reaches the decode calls (every earlier failure path
goes through `raise jwt.InvalidTokenError`, an attribute `jose.jwt` does
not have, and so also escapes as AttributeError).  `hasIssuer` says
whether an issuer is configured, `appClientId` is the configured
application client id, and `p` holds the token's claims.  The unverified
decode at auth.py:126 omits `jose.jwt.decode`'s required `key` argument,
its TypeError is swallowed by the bare `except`, and the local `token_use`
is therefore `None` for every token.  The main decode at auth.py:159
carries the `leeway` keyword, which `jose.jwt.decode` does not accept, so
it raises TypeError; evaluating the `except jwt.exceptions...` clause at
auth.py:160 then raises AttributeError (`jose.jwt` has no `exceptions`
attribute), which escapes.  The `client_id` validation at auth.py:168-172
is dead code keyed on the always-`None` local `token_use`, and its
`raise jwt.InvalidAudienceError` would itself be an AttributeError: no
invalid-audience failure exists in this program. -/
def _verify_token (hasIssuer : Bool) (appClientId : Option String)
    (p : TokenPayload) : Except PyError TokenPayload :=
  let token_use : Option String :=
    if joseDecodeCallOk false ["options"] = true then p.token_use else none
  if joseDecodeCallOk true
      (verifyDecodeKwargNames hasIssuer token_use appClientId) = false then
    .error .attributeError
  else if token_use = some "access" ∧ pyTruthyStr appClientId = true ∧
      pyTruthyStr p.client_id = true ∧ ¬ p.client_id = appClientId then
    .error .attributeError
  else if pyTruthyStr token_use = true ∧ ¬ token_use = some "id" ∧
      ¬ token_use = some "access" then
    .error .attributeError
  else .ok p

/-- Abstract rendering of `datetime.isoformat()`: the ISO-8601 string of an
abstract clock reading. -/
def isoformat (t : Nat) : String := "iso-8601-" ++ toString t

mutual

/-- `serialize_doc` from `app/utils/json_encoder.py`.  `None` maps to `None`,
a list maps to the list of serialized items, any other non-dict value is
returned as is, and a dict is rebuilt key by key via the per-value rules. -/
def serialize_doc : Value → Value
  | .vArr xs => .vArr (serializeList xs)
  | .vDoc fs => .vDoc (serializeFields fs)
  | v => v

/-- The list comprehension `[serialize_doc(item) for item in doc]`. -/
def serializeList : List Value → List Value
  | [] => []
  | x :: xs => serialize_doc x :: serializeList xs

/-- The `for key, value in doc.items()` loop of `serialize_doc`. -/
def serializeFields : List (String × Value) → List (String × Value)
  | [] => []
  | (k, v) :: rest => (k, serializeValue v) :: serializeFields rest

/-- The per-value branch of the dict loop: datetimes render as ISO-8601
strings, ObjectIds as their string form, dicts and lists recurse, all other
values pass through. -/
def serializeValue : Value → Value
  | .vDate t => .vStr (isoformat t)
  | .vOid s => .vStr s
  | .vDoc fs => .vDoc (serializeFields fs)
  | .vArr xs => .vArr (serializeList xs)
  | v => v

end

/-- Does a value render a bare `vDate`/`vOid` into JSON, i.e. is it itself,
or does it contain at the top of a list nesting, such a raw scalar?  Used to
phrase which raw scalars `serialize_doc` leaves behind. -/
def isRawScalar : Value → Bool
  | .vDate _ => true
  | .vOid _ => true
  | _ => false

mutual

/-- No dict field anywhere inside the value binds a raw timestamp or
ObjectId directly. -/
def cleanFieldValues : Value → Bool
  | .vArr xs => cleanFieldValuesList xs
  | .vDoc fs => cleanFieldValuesFields fs
  | _ => true

/-- `cleanFieldValues` on every element of a list. -/
def cleanFieldValuesList : List Value → Bool
  | [] => true
  | x :: xs => cleanFieldValues x && cleanFieldValuesList xs

/-- `cleanFieldValues` on every field of a dict, also requiring that no
field value is itself a raw timestamp or ObjectId. -/
def cleanFieldValuesFields : List (String × Value) → Bool
  | [] => true
  | (_, v) :: rest =>
      !isRawScalar v && cleanFieldValues v && cleanFieldValuesFields rest

end

theorem getField_setField_same (d : Document) (k : String) (v : Value) :
    getField (setField d k v) k = some v := by
  induction d with
  | nil => simp [setField, getField]
  | cons p rest ih =>
    obtain ⟨k0, v0⟩ := p
    by_cases h : k0 = k
    · simp [setField, h, getField]
    · simp [setField, h, getField, ih]

theorem getField_setField_ne (d : Document) (k1 k : String) (v : Value)
    (h : k1 ≠ k) : getField (setField d k1 v) k = getField d k := by
  induction d with
  | nil => simp [setField, getField, h]
  | cons p rest ih =>
    obtain ⟨k0, v0⟩ := p
    by_cases h0 : k0 = k1
    · subst h0
      simp [setField, getField, h]
    · simp [setField, h0, getField, ih]

theorem applySet_cons (d : Document) (p : String × Value) (us : Document) :
    applySet d (p :: us) = applySet (setField d p.1 p.2) us := rfl

theorem getField_applySet_not_mem (us : Document) (d : Document) (k : String)
    (h : k ∉ us.map Prod.fst) : getField (applySet d us) k = getField d k := by
  induction us generalizing d with
  | nil => rfl
  | cons p rest ih =>
    rw [List.map_cons, List.mem_cons, not_or] at h
    rw [applySet_cons, ih _ h.2, getField_setField_ne]
    exact fun e => h.1 e.symm

theorem getField_applySet_mem (us : Document) (d : Document) (k : String)
    (v : Value) (hnd : (us.map Prod.fst).Nodup) (hget : getField us k = some v) :
    getField (applySet d us) k = some v := by
  induction us generalizing d with
  | nil => simp [getField] at hget
  | cons p rest ih =>
    obtain ⟨k0, v0⟩ := p
    rw [List.map_cons, List.nodup_cons] at hnd
    by_cases h : k0 = k
    · subst h
      rw [getField, if_pos rfl] at hget
      rw [applySet_cons, getField_applySet_not_mem _ _ _ hnd.1,
        getField_setField_same]
      exact hget
    · rw [getField, if_neg h] at hget
      rw [applySet_cons]
      exact ih _ hnd.2 hget

theorem keys_sanitize_subset (data : Document) (k : String)
    (h : k ∈ (sanitize data).map Prod.fst) : k ∈ data.map Prod.fst := by
  obtain ⟨p, hp, hpk⟩ := List.mem_map.1 h
  exact List.mem_map.2 ⟨p, (List.filter_sublist data).mem hp, hpk⟩

theorem keys_sanitize_stripped (data : Document) (k : String)
    (h : k = "_id" ∨ k = "userId" ∨ k = "createdAt") :
    k ∉ (sanitize data).map Prod.fst := by
  intro hmem
  obtain ⟨p, hp, hpk⟩ := List.mem_map.1 hmem
  have hkeep := List.of_mem_filter hp
  subst hpk
  simp only [Bool.not_eq_eq_eq_not, Bool.not_true, Bool.or_eq_false_iff,
    beq_eq_false_iff_ne, ne_eq] at hkeep
  rcases h with h | h | h <;> exact absurd h (by tauto)

theorem getField_eq_none_of_not_mem_keys (d : Document) (k : String)
    (h : k ∉ d.map Prod.fst) : getField d k = none := by
  induction d with
  | nil => rfl
  | cons p rest ih =>
    rw [List.map_cons, List.mem_cons, not_or] at h
    rw [getField, if_neg (fun e => h.1 e.symm)]
    exact ih h.2

theorem keys_sanitize_nodup (data : Document)
    (h : (data.map Prod.fst).Nodup) : ((sanitize data).map Prod.fst).Nodup :=
  h.sublist ((List.filter_sublist data).map Prod.fst)

/-- C2: `MongoUserRepository.update` strips `_id`, `userId` and `createdAt`
from the supplied data, stamps `updatedAt` with the current time, applies
exactly the remaining fields as a partial update, and leaves every stored
field not mentioned in the sanitized data — in particular the identity key
and `createdAt` — unchanged.  The hypothesis that the data's keys are
distinct reflects that the data is a Python `dict`. -/
theorem update_sanitizes_and_frames (doc data : Document) (t : Nat)
    (hnd : (data.map Prod.fst).Nodup) :
    (getField (sanitize data) "_id" = none ∧
     getField (sanitize data) "userId" = none ∧
     getField (sanitize data) "createdAt" = none) ∧
    getField (update doc data t) "updatedAt" = some (.vDate t) ∧
    (∀ k v, k ≠ "updatedAt" → getField (sanitize data) k = some v →
       getField (update doc data t) k = some v) ∧
    (∀ k, k ≠ "updatedAt" → k ∉ (sanitize data).map Prod.fst →
       getField (update doc data t) k = getField doc k) ∧
    getField (update doc data t) "_id" = getField doc "_id" ∧
    getField (update doc data t) "createdAt" = getField doc "createdAt" := by
  have hframe : ∀ k, k ≠ "updatedAt" → k ∉ (sanitize data).map Prod.fst →
      getField (update doc data t) k = getField doc k := by
    intro k hk hmem
    rw [update, getField_setField_ne _ _ _ _ (fun e => hk e.symm),
      getField_applySet_not_mem _ _ _ hmem]
  refine ⟨⟨?_, ?_, ?_⟩, ?_, ?_, hframe, ?_, ?_⟩
  · exact getField_eq_none_of_not_mem_keys _ _
      (keys_sanitize_stripped data _ (Or.inl rfl))
  · exact getField_eq_none_of_not_mem_keys _ _
      (keys_sanitize_stripped data _ (Or.inr (Or.inl rfl)))
  · exact getField_eq_none_of_not_mem_keys _ _
      (keys_sanitize_stripped data _ (Or.inr (Or.inr rfl)))
  · rw [update, getField_setField_same]
  · intro k v hk hget
    rw [update, getField_setField_ne _ _ _ _ (fun e => hk e.symm)]
    exact getField_applySet_mem _ _ _ _ (keys_sanitize_nodup data hnd) hget
  · exact hframe _ (by decide) (keys_sanitize_stripped data _ (Or.inl rfl))
  · exact hframe _ (by decide) (keys_sanitize_stripped data _ (Or.inr (Or.inr rfl)))

/-- C2 witness: a concrete update whose data tries to overwrite `_id`,
`userId` and `createdAt`; the stored identity key and `createdAt` survive,
`bio` is applied, `updatedAt` is stamped. -/
theorem update_sanitizes_and_frames_witness :
    getField (update
        [("_id", .vStr "u1"), ("createdAt", .vDate 1), ("bio", .vStr "old"),
         ("avatar", .vStr "http-old")]
        [("_id", .vStr "evil"), ("userId", .vStr "evil"),
         ("createdAt", .vDate 99), ("bio", .vStr "new")] 5) "bio" =
      some (.vStr "new") ∧
    getField (update
        [("_id", .vStr "u1"), ("createdAt", .vDate 1), ("bio", .vStr "old"),
         ("avatar", .vStr "http-old")]
        [("_id", .vStr "evil"), ("userId", .vStr "evil"),
         ("createdAt", .vDate 99), ("bio", .vStr "new")] 5) "_id" =
      some (.vStr "u1") ∧
    getField (update
        [("_id", .vStr "u1"), ("createdAt", .vDate 1), ("bio", .vStr "old"),
         ("avatar", .vStr "http-old")]
        [("_id", .vStr "evil"), ("userId", .vStr "evil"),
         ("createdAt", .vDate 99), ("bio", .vStr "new")] 5) "createdAt" =
      some (.vDate 1) ∧
    getField (update
        [("_id", .vStr "u1"), ("createdAt", .vDate 1), ("bio", .vStr "old"),
         ("avatar", .vStr "http-old")]
        [("_id", .vStr "evil"), ("userId", .vStr "evil"),
         ("createdAt", .vDate 99), ("bio", .vStr "new")] 5) "updatedAt" =
      some (.vDate 5) := by
  have h := update_sanitizes_and_frames
    [("_id", .vStr "u1"), ("createdAt", .vDate 1), ("bio", .vStr "old"),
     ("avatar", .vStr "http-old")]
    [("_id", .vStr "evil"), ("userId", .vStr "evil"),
     ("createdAt", .vDate 99), ("bio", .vStr "new")] 5 (by decide)
  exact ⟨h.2.2.1 "bio" _ (by decide) rfl,
    (h.2.2.2.2.1).trans rfl, (h.2.2.2.2.2).trans rfl, h.2.1⟩

/-- C1 (amended): `create` fails with the invalid-input error when `userId`
is absent (or falsy); when a record already exists under that id it behaves
as `update` and inserts nothing (and the public endpoint answers 409); and
when no record exists and the data carries a string email, it inserts and
returns verbatim a record with role `student`, empty avatar and bio, empty
`serie_subscribe`, `cognito_sub` equal to the id, and username defaulting to
the email's local part when not supplied.  (When the email is absent the
insert branch instead raises — see the counterexample and C9.) -/
theorem create_spec (data : Document) (t : Nat) :
    (getField data "userId" = none →
       ∀ existing, create existing data t = .error .invalidInput) ∧
    (∀ idv, getField data "userId" = some idv → pyTruthy idv = false →
       ∀ existing, create existing data t = .error .invalidInput) ∧
    (∀ idv doc, getField data "userId" = some idv → pyTruthy idv = true →
       create (some doc) data t = .ok (update doc data t, false) ∧
       createResultingStore (some doc) data t = some (update doc data t) ∧
       create_profile data (some doc) t = (409, some doc)) ∧
    (∀ idv e, getField data "userId" = some idv → pyTruthy idv = true →
       getField data "email" = some (.vStr e) →
       ∃ payload, create none data t = .ok (payload, true) ∧
         createResultingStore none data t = some payload ∧
         getField payload "_id" = some idv ∧
         getField payload "role" = some (.vStr "student") ∧
         getField payload "avatar" = some (.vStr "") ∧
         getField payload "bio" = some (.vStr "") ∧
         getField payload "serie_subscribe" = some (.vArr []) ∧
         getField payload "cognito_sub" = some idv ∧
         getField payload "createdAt" = some (.vDate t) ∧
         getField payload "username" =
           some ((getField data "username").getD
             (.vStr (e.toList.takeWhile (fun c => c ≠ '@')).asString)) ∧
         getField payload "email" = some (.vStr e)) := by
  refine ⟨?_, ?_, ?_, ?_⟩
  · intro h existing
    simp [create, h]
  · intro idv h ht existing
    simp [create, h, ht]
  · intro idv doc h ht
    refine ⟨by simp [create, h, ht], ?_, by simp [create_profile, h, ht]⟩
    simp [createResultingStore, create, h, ht]
  · intro idv e h ht he
    refine ⟨[("_id", idv), ("email", .vStr e),
      ("name", (getField data "name").getD .vNull),
      ("username", (getField data "username").getD
        (.vStr (e.toList.takeWhile (fun c => c ≠ '@')).asString)),
      ("gender", (getField data "gender").getD (.vStr "")),
      ("birthdate", (getField data "birthdate").getD (.vStr "")),
      ("role", .vStr "student"), ("avatar", .vStr ""), ("bio", .vStr ""),
      ("cognito_sub", idv), ("serie_subscribe", .vArr []),
      ("createdAt", .vDate t), ("updatedAt", .vDate t),
      ("lastLogin", .vDate t)],
      by simp [create, h, ht, he, emailLocalPart], ?_, ?_⟩
    · simp [createResultingStore, create, h, ht, he, emailLocalPart]
    · refine ⟨?_, ?_, ?_, ?_, ?_, ?_, ?_, ?_, ?_⟩ <;>
        simp [getField]

/-- C1 counterexample: a create of a brand-new record whose data carries a
`userId` and even an explicit `username` but no email.  The claim as stated
says this inserts a record and returns it verbatim; the code instead raises
the unhandled `AttributeError` from computing the username default
(`data.get("email").split('@')[0]` is evaluated eagerly) and nothing is
inserted. -/
theorem create_spec_counterexample :
    create none [("userId", .vStr "u1"), ("username", .vStr "bob")] 0 =
      .error .attributeError ∧
    createResultingStore none
      [("userId", .vStr "u1"), ("username", .vStr "bob")] 0 = none :=
  ⟨rfl, rfl⟩

/-- C1 witness: concrete instances of the amended theorem — a create without
`userId` is rejected; a create over an existing record acts as update and
answers 409 publicly; a fresh create with an email inserts the defaulted
record. -/
theorem create_spec_witness :
    create none [("email", .vStr "a@b.com")] 0 = .error .invalidInput ∧
    create (some [("_id", .vStr "u1"), ("bio", .vStr "old")])
      [("userId", .vStr "u1"), ("bio", .vStr "new")] 3 =
      .ok (update [("_id", .vStr "u1"), ("bio", .vStr "old")]
        [("userId", .vStr "u1"), ("bio", .vStr "new")] 3, false) ∧
    create_profile [("userId", .vStr "u1"), ("bio", .vStr "new")]
      (some [("_id", .vStr "u1"), ("bio", .vStr "old")]) 3 =
      (409, some [("_id", .vStr "u1"), ("bio", .vStr "old")]) ∧
    (∃ payload,
       create none [("userId", .vStr "u2"), ("email", .vStr "ana@mail.com")] 7 =
         .ok (payload, true) ∧
       createResultingStore none
         [("userId", .vStr "u2"), ("email", .vStr "ana@mail.com")] 7 =
         some payload ∧
       getField payload "_id" = some (.vStr "u2") ∧
       getField payload "role" = some (.vStr "student") ∧
       getField payload "avatar" = some (.vStr "") ∧
       getField payload "bio" = some (.vStr "") ∧
       getField payload "serie_subscribe" = some (.vArr []) ∧
       getField payload "cognito_sub" = some (.vStr "u2") ∧
       getField payload "createdAt" = some (.vDate 7) ∧
       getField payload "username" = some (.vStr "ana") ∧
       getField payload "email" = some (.vStr "ana@mail.com")) := by
  refine ⟨(create_spec [("email", .vStr "a@b.com")] 0).1 rfl none,
    ((create_spec [("userId", .vStr "u1"), ("bio", .vStr "new")] 3).2.2.1
      (.vStr "u1") [("_id", .vStr "u1"), ("bio", .vStr "old")] rfl rfl).1,
    ((create_spec [("userId", .vStr "u1"), ("bio", .vStr "new")] 3).2.2.1
      (.vStr "u1") [("_id", .vStr "u1"), ("bio", .vStr "old")] rfl rfl).2.2,
    ?_⟩
  obtain ⟨payload, h1, h2, h3, h4, h5, h6, h7, h8, h9, h10, h11⟩ :=
    (create_spec [("userId", .vStr "u2"), ("email", .vStr "ana@mail.com")]
      7).2.2.2 (.vStr "u2") "ana@mail.com" rfl rfl rfl
  exact ⟨payload, h1, h2, h3, h4, h5, h6, h7, h8, h9,
    h10.trans (by with_unfolding_all rfl), h11⟩

/-- C9: a create of a brand-new record whose data has a (truthy) `userId`
but neither an email nor a username raises the unhandled `AttributeError`
while deriving the default username from the absent email, so the public
endpoint answers with the generic 500 envelope (not a validation error), and
no record is inserted. -/
theorem create_missing_email_crashes (data : Document) (t : Nat) (idv : Value)
    (h1 : getField data "userId" = some idv) (h2 : pyTruthy idv = true)
    (h3 : getField data "email" = none)
    (h4 : getField data "username" = none) :
    create none data t = .error .attributeError ∧
    createResultingStore none data t = none ∧
    create_profile data none t = (500, none) := by
  refine ⟨by simp [create, h1, h2, h3, emailLocalPart], ?_, ?_⟩
  · simp [createResultingStore, create, h1, h2, h3, emailLocalPart]
  · simp [create_profile, create, h1, h2, h3, emailLocalPart]

/-- C9 witness: the concrete body `{"userId": "u1"}` crashes the create and
the endpoint answers 500 with nothing inserted. -/
theorem create_missing_email_crashes_witness :
    create none [("userId", .vStr "u1")] 0 = .error .attributeError ∧
    createResultingStore none [("userId", .vStr "u1")] 0 = none ∧
    create_profile [("userId", .vStr "u1")] none 0 = (500, none) :=
  create_missing_email_crashes [("userId", .vStr "u1")] 0 (.vStr "u1")
    rfl rfl rfl rfl

/-- C6: when the thumbnail upload fails (the Media client returns an absent
result instead of raising), `update_user` still runs the repository update
with the caller's data unmodified, so a stored avatar URL survives whenever
the caller's data itself does not set `avatar`; and a failure to delete the
old avatar never changes the outcome. -/
theorem update_user_upload_failure (doc data : Document) (deleteFails : Bool)
    (t : Nat) :
    update_user doc data true none deleteFails t = update doc data t ∧
    (∀ deleteFails2,
       update_user doc data true none deleteFails2 t =
         update_user doc data true none deleteFails t) ∧
    (∀ uploadResult deleteFails2 deleteFails3,
       update_user doc data true uploadResult deleteFails2 t =
         update_user doc data true uploadResult deleteFails3 t) ∧
    ("avatar" ∉ data.map Prod.fst →
       getField (update_user doc data true none deleteFails t) "avatar" =
         getField doc "avatar") := by
  refine ⟨rfl, fun _ => rfl, fun _ _ _ => rfl, ?_⟩
  intro hmem
  show getField (update doc data t) "avatar" = getField doc "avatar"
  rw [update, getField_setField_ne _ _ _ _ (by decide),
    getField_applySet_not_mem]
  exact fun hs => hmem (keys_sanitize_subset data _ hs)

/-- C6 witness: a concrete failed upload — the stored avatar URL survives
the update and the delete failure flag is irrelevant. -/
theorem update_user_upload_failure_witness :
    getField (update_user [("_id", .vStr "u1"), ("avatar", .vStr "http-old")]
      [("bio", .vStr "x")] true none true 9) "avatar" =
      some (.vStr "http-old") ∧
    update_user [("_id", .vStr "u1"), ("avatar", .vStr "http-old")]
      [("bio", .vStr "x")] true none false 9 =
      update [("_id", .vStr "u1"), ("avatar", .vStr "http-old")]
        [("bio", .vStr "x")] 9 := by
  refine ⟨((update_user_upload_failure
    [("_id", .vStr "u1"), ("avatar", .vStr "http-old")]
    [("bio", .vStr "x")] true 9).2.2.2 (by decide)).trans rfl,
    (update_user_upload_failure
    [("_id", .vStr "u1"), ("avatar", .vStr "http-old")]
    [("bio", .vStr "x")] false 9).1⟩

theorem addToSet_nodup (xs : List String) (x : String) (h : xs.Nodup) :
    (addToSet xs x).Nodup := by
  unfold addToSet
  by_cases hm : x ∈ xs
  · simpa [hm]
  · simp [hm, List.nodup_append, h]

theorem add_subscription_step_nodup (b : Option String) (st : Option SubUser)
    (t : Nat) (h : ∀ u, st = some u → u.subs.Nodup) :
    ∀ u2, (add_subscription b st t).2 = some u2 → u2.subs.Nodup := by
  intro u2 h2
  match b, st with
  | none, st => exact h u2 h2
  | some sid, none =>
    by_cases he : sid = "" <;> simp [add_subscription, he] at h2
  | some sid, some u =>
    by_cases he : sid = ""
    · simp [add_subscription, he] at h2
      exact h2 ▸ h u rfl
    · by_cases hm : sid ∈ u.subs
      · simp [add_subscription, he, hm] at h2
        exact h2 ▸ h u rfl
      · simp [add_subscription, he, hm] at h2
        subst h2
        exact addToSet_nodup _ _ (h u rfl)

theorem runAddCalls_nodup (calls : List (Option String × Nat))
    (st : Option SubUser) (h : ∀ u, st = some u → u.subs.Nodup) :
    ∀ u2, runAddCalls calls st = some u2 → u2.subs.Nodup := by
  induction calls generalizing st with
  | nil => exact h
  | cons c rest ih =>
    intro u2 h2
    exact ih _ (add_subscription_step_nodup c.1 st c.2 h) u2 h2

/-- C3: the add-subscription endpoint answers 409 and leaves the store
untouched when the serie id is already subscribed, and otherwise appends it
with set semantics; hence starting from a duplicate-free subscription array
(records are created with an empty one), any sequence of add-subscription
calls keeps every serie id subscribed at most once, and in the double-add
scenario the second call answers 409 with the id stored exactly once. -/
theorem add_subscription_spec (u : SubUser) (sid : String) (t t2 : Nat) :
    (sid ≠ "" → sid ∈ u.subs →
       add_subscription (some sid) (some u) t = (409, some u)) ∧
    (sid ∉ u.subs → sid ≠ "" →
       add_subscription (some sid) (some u) t =
         (200, some ⟨u.subs ++ [sid], t⟩) ∧
       add_subscription (some sid) (some ⟨u.subs ++ [sid], t⟩) t2 =
         (409, some ⟨u.subs ++ [sid], t⟩) ∧
       (u.subs ++ [sid]).count sid = 1) ∧
    (∀ calls u2, u.subs.Nodup → runAddCalls calls (some u) = some u2 →
       u2.subs.Nodup ∧ ∀ s, u2.subs.count s ≤ 1) := by
  refine ⟨?_, ?_, ?_⟩
  · intro he hm
    simp [add_subscription, he, hm]
  · intro hm he
    refine ⟨by simp [add_subscription, he, hm, addToSet], ?_, ?_⟩
    · have hm2 : sid ∈ u.subs ++ [sid] := List.mem_append_right _ (by simp)
      simp [add_subscription, he, hm2]
    · rw [List.count_append, List.count_eq_zero.2 hm]
      simp
  · intro calls u2 hnd hrun
    have h2 := runAddCalls_nodup calls (some u)
      (fun v hv => by cases hv; exact hnd) u2 hrun
    exact ⟨h2, fun s => List.nodup_iff_count_le_one.1 h2 s⟩

/-- C3 witness: user subscribed to `a`; adding `b` succeeds and stores it
once, adding `b` again answers 409 without duplicating it; a concrete call
sequence keeps the array duplicate-free. -/
theorem add_subscription_spec_witness :
    add_subscription (some "b") (some ⟨["a"], 0⟩) 5 =
      (200, some ⟨["a", "b"], 5⟩) ∧
    add_subscription (some "b") (some ⟨["a", "b"], 5⟩) 6 =
      (409, some ⟨["a", "b"], 5⟩) ∧
    (["a", "b"] : List String).count "b" = 1 ∧
    add_subscription (some "a") (some ⟨["a"], 0⟩) 5 = (409, some ⟨["a"], 0⟩) := by
  obtain ⟨h1, h2, h3⟩ :=
    (add_subscription_spec ⟨["a"], 0⟩ "b" 5 6).2.1 (by decide) (by decide)
  exact ⟨h1, h2, h3,
    (add_subscription_spec ⟨["a"], 0⟩ "a" 5 6).1 (by decide) (by decide)⟩

theorem not_mem_filter_bne (l : List String) (sid : String) :
    sid ∉ l.filter (fun s => s != sid) := by
  intro h
  have := (List.mem_filter.1 h).2
  simp at this

theorem filter_bne_eq_self (l : List String) (sid : String) (h : sid ∉ l) :
    l.filter (fun s => s != sid) = l := by
  refine List.filter_eq_self.2 (fun a ha => ?_)
  simp only [bne_iff_ne, ne_eq, decide_eq_true_eq]
  rintro rfl
  exact h ha

/-- C7: the bulk-remove endpoint pulls the serie id from the arrays of
exactly the users that contain it — each affected user's array becomes its
old array with every occurrence of the id removed, untouched users are left
bit-for-bit identical — and reports the number of records containing the id;
a second run on the resulting state reports 0 and changes nothing. -/
theorem remove_serie_spec (users : List URec) (sid : String) (t t2 : Nat) :
    (remove_serie_from_all_users users sid t).2 =
      users.countP (fun u => decide (sid ∈ u.subs)) ∧
    (remove_serie_from_all_users users sid t).1.length = users.length ∧
    (∀ u2 ∈ (remove_serie_from_all_users users sid t).1, sid ∉ u2.subs) ∧
    (∀ i (h : i < users.length)
       (h2 : i < (remove_serie_from_all_users users sid t).1.length),
       ((remove_serie_from_all_users users sid t).1.get ⟨i, h2⟩).subs =
         (users.get ⟨i, h⟩).subs.filter (fun s => s != sid) ∧
       (sid ∉ (users.get ⟨i, h⟩).subs →
          (remove_serie_from_all_users users sid t).1.get ⟨i, h2⟩ =
            users.get ⟨i, h⟩)) ∧
    remove_serie_from_all_users
        (remove_serie_from_all_users users sid t).1 sid t2 =
      ((remove_serie_from_all_users users sid t).1, 0) := by
  have hnomem : ∀ u2 ∈ (remove_serie_from_all_users users sid t).1,
      sid ∉ u2.subs := by
    intro u2 hu2
    obtain ⟨u, _, rfl⟩ := List.mem_map.1 hu2
    unfold pullSerie
    by_cases hm : sid ∈ u.subs
    · rw [if_pos hm]
      exact not_mem_filter_bne _ _
    · rw [if_neg hm]
      exact hm
  refine ⟨?_, by simp [remove_serie_from_all_users], hnomem, ?_, ?_⟩
  · simp [remove_serie_from_all_users, List.countP_eq_length_filter]
  · intro i h h2
    have hget : (remove_serie_from_all_users users sid t).1.get ⟨i, h2⟩ =
        pullSerie sid t (users.get ⟨i, h⟩) := by
      simp [remove_serie_from_all_users, List.get_eq_getElem,
        List.getElem_map]
    by_cases hm : sid ∈ (users.get ⟨i, h⟩).subs
    · constructor
      · rw [hget]
        unfold pullSerie
        rw [if_pos hm]
      · exact fun hc => absurd hm hc
    · have hid : pullSerie sid t (users.get ⟨i, h⟩) = users.get ⟨i, h⟩ := by
        unfold pullSerie
        rw [if_neg hm]
      constructor
      · rw [hget, hid]
        exact (filter_bne_eq_self _ _ hm).symm
      · exact fun hc => by rw [hget, hid]
  · have hmap : (remove_serie_from_all_users users sid t).1.map
        (pullSerie sid t2) = (remove_serie_from_all_users users sid t).1 := by
      refine (List.map_congr_left ?_).trans
        (List.map_id (remove_serie_from_all_users users sid t).1)
      intro u hu
      unfold pullSerie
      rw [if_neg (hnomem u hu)]
      rfl
    have hcnt : ((remove_serie_from_all_users users sid t).1.filter
        (fun u => sid ∈ u.subs)).length = 0 := by
      rw [List.filter_eq_nil_iff.2 (fun u hu => by simpa using hnomem u hu)]
      rfl
    exact Prod.ext hmap hcnt

/-- C7 witness: two of three users subscribe to `s1`; one bulk remove
reports 2 and a second run is a no-op reporting 0. -/
theorem remove_serie_spec_witness :
    (remove_serie_from_all_users
      [⟨"u1", ["s1", "s2"], 0⟩, ⟨"u2", ["s2"], 0⟩, ⟨"u3", ["s1"], 0⟩]
      "s1" 5).2 = 2 ∧
    remove_serie_from_all_users
        (remove_serie_from_all_users
          [⟨"u1", ["s1", "s2"], 0⟩, ⟨"u2", ["s2"], 0⟩, ⟨"u3", ["s1"], 0⟩]
          "s1" 5).1 "s1" 7 =
      ((remove_serie_from_all_users
          [⟨"u1", ["s1", "s2"], 0⟩, ⟨"u2", ["s2"], 0⟩, ⟨"u3", ["s1"], 0⟩]
          "s1" 5).1, 0) := by
  refine ⟨(remove_serie_spec
      [⟨"u1", ["s1", "s2"], 0⟩, ⟨"u2", ["s2"], 0⟩, ⟨"u3", ["s1"], 0⟩]
      "s1" 5 7).1.trans (by decide),
    (remove_serie_spec
      [⟨"u1", ["s1", "s2"], 0⟩, ⟨"u2", ["s2"], 0⟩, ⟨"u3", ["s1"], 0⟩]
      "s1" 5 7).2.2.2.2⟩

/-- C8 (amended): cache keys have the form
`educonnect:{scope}:{method}:{path}:{query}` with scope `public` for the
public decorator and `user_{userId}` for the per-user decorator; when no
identity context is present the per-user scope is the `anonymous` default
substituted into that pattern, i.e. `user_anonymous` (not a bare
`anonymous` scope). -/
theorem cache_key_format (req : FlaskRequest) (uid : String) :
    make_cache_key_public req =
      "educonnect" ++ ":" ++ "public" ++ ":" ++ req.method ++ ":" ++
        req.path ++ ":" ++ req.query_string ∧
    make_cache_key_with_user (some uid) req =
      "educonnect" ++ ":" ++ ("user_" ++ uid) ++ ":" ++ req.method ++ ":" ++
        req.path ++ ":" ++ req.query_string ∧
    make_cache_key_with_user none req =
      "educonnect" ++ ":" ++ "user_anonymous" ++ ":" ++ req.method ++ ":" ++
        req.path ++ ":" ++ req.query_string ∧
    make_cache_key_public ⟨"GET", "/api/v1/series", "page=1"⟩ =
      "educonnect:public:GET:/api/v1/series:page=1" ∧
    make_cache_key_with_user (some "abc123")
        ⟨"GET", "/api/v1/series/subscriptions", ""⟩ =
      "educonnect:user_abc123:GET:/api/v1/series/subscriptions:" :=
  ⟨rfl, rfl, rfl, rfl, rfl⟩

/-- C8 counterexample: with no identity context the per-user key's scope
component is `user_anonymous`, so the key differs from the one the claim
prescribes (bare scope `anonymous`). -/
theorem cache_key_counterexample :
    make_cache_key_with_user none ⟨"GET", "/api/v1/users/profile", ""⟩ =
      "educonnect:user_anonymous:GET:/api/v1/users/profile:" ∧
    "educonnect:user_anonymous:GET:/api/v1/users/profile:" ≠
      "educonnect:anonymous:GET:/api/v1/users/profile:" :=
  ⟨rfl, by decide⟩

/-- C4: the claimed comparison never executes — auth.py:10 imports PyJWT
but auth.py:12 rebinds `jwt` to `jose.jwt`, so the main decode of
`_verify_token` is called with the PyJWT-only `leeway` keyword, which is
not in `jose.jwt.decode`'s signature, raises TypeError, and the broken
`except jwt.exceptions...` clause turns it into an escaping
AttributeError.  An access token whose `client_id` differs from the
configured application client id is therefore neither rejected with an
invalid-audience failure (no such attribute exists on `jose.jwt`) nor
accepted with its payload: the call raises for every token. -/
theorem verify_token_mismatch_raises (hasIssuer : Bool) (a c : String)
    (p : TokenPayload) (hu : p.token_use = some "access")
    (hp : p.client_id = some c) (hne : c ≠ a) :
    _verify_token hasIssuer (some a) p = .error .attributeError ∧
    ∀ q, ¬ _verify_token hasIssuer (some a) p = .ok q := by
  have h1 : _verify_token hasIssuer (some a) p = .error .attributeError := by
    cases hasIssuer <;> rfl
  exact ⟨h1, fun q hq => Except.noConfusion (h1.symm.trans hq)⟩

/-- C4 witness: configured client id `app-client`, an issuer configured,
and an access token with the mismatching `client_id` `other-client` —
the call raises instead of rejecting with an invalid-audience failure. -/
theorem verify_token_mismatch_raises_witness :
    _verify_token true (some "app-client")
      ⟨some "access", some "other-client", none⟩ = .error .attributeError :=
  (verify_token_mismatch_raises true "app-client" "other-client"
    ⟨some "access", some "other-client", none⟩ rfl rfl (by decide)).1

/-- C10: the claim's conclusion fails on the program — under the
jose-shadowed `jwt` binding, `_verify_token` raises the AttributeError
from its broken decode/except pair for every token and never returns a
payload, so an access token carrying no `client_id` claim is not accepted
(no audience or client-id comparison is applied to it, but only because
none is ever applied to any token: the guard is keyed on a local
`token_use` that is always `None`). -/
theorem verify_token_no_client_id_raises (hasIssuer : Bool)
    (appClientId : Option String) (p : TokenPayload)
    (hu : p.token_use = some "access") (hp : p.client_id = none) :
    _verify_token hasIssuer appClientId p = .error .attributeError ∧
    ∀ q, ¬ _verify_token hasIssuer appClientId p = .ok q := by
  have h1 : _verify_token hasIssuer appClientId p = .error .attributeError := by
    cases hasIssuer <;> rfl
  exact ⟨h1, fun q hq => Except.noConfusion (h1.symm.trans hq)⟩

/-- C10 witness: configured client id `app-client` and an access token
without any `client_id` claim — the call raises instead of returning the
payload. -/
theorem verify_token_no_client_id_raises_witness :
    _verify_token false (some "app-client") ⟨some "access", none, some "s1"⟩ =
      .error .attributeError :=
  (verify_token_no_client_id_raises false (some "app-client")
    ⟨some "access", none, some "s1"⟩ rfl rfl).1

mutual

theorem serialize_doc_clean : ∀ v : Value,
    cleanFieldValues (serialize_doc v) = true
  | .vNull => rfl
  | .vBool _ => rfl
  | .vInt _ => rfl
  | .vStr _ => rfl
  | .vDate _ => rfl
  | .vOid _ => rfl
  | .vArr xs => serializeList_clean xs
  | .vDoc fs => serializeFields_clean fs

theorem serializeList_clean : ∀ xs : List Value,
    cleanFieldValuesList (serializeList xs) = true
  | [] => rfl
  | x :: xs => by
      show (cleanFieldValues (serialize_doc x) &&
        cleanFieldValuesList (serializeList xs)) = true
      rw [serialize_doc_clean x, serializeList_clean xs]
      rfl

theorem serializeFields_clean : ∀ fs : List (String × Value),
    cleanFieldValuesFields (serializeFields fs) = true
  | [] => rfl
  | (_, v) :: rest => by
      show ((!isRawScalar (serializeValue v) &&
        cleanFieldValues (serializeValue v)) &&
        cleanFieldValuesFields (serializeFields rest)) = true
      rw [serializeValue_clean v, serializeFields_clean rest]
      rfl

theorem serializeValue_clean : ∀ v : Value,
    (!isRawScalar (serializeValue v) &&
      cleanFieldValues (serializeValue v)) = true
  | .vNull => rfl
  | .vBool _ => rfl
  | .vInt _ => rfl
  | .vStr _ => rfl
  | .vDate _ => rfl
  | .vOid _ => rfl
  | .vArr xs => serializeList_clean xs
  | .vDoc fs => serializeFields_clean fs

end

/-- C5 (amended): `serialize_doc` maps an absent value to an absent value
and passes scalar values through; a timestamp or opaque identifier occurring
as the value of a mapping key is rendered as its ISO-8601 string resp. its
string form, and this holds at any depth reached through nested mappings and
through lists (the output contains no mapping key bound to a raw timestamp
or identifier); but a timestamp or identifier occurring as a bare top-level
value or directly as a list element passes through unchanged rather than
being rendered. -/
theorem serialize_doc_spec (v : Value) (fs : List (String × Value))
    (k s : String) (t : Nat) (n : Int) (b : Bool) :
    serialize_doc .vNull = .vNull ∧
    cleanFieldValues (serialize_doc v) = true ∧
    serializeFields ((k, .vDate t) :: fs) =
      (k, .vStr (isoformat t)) :: serializeFields fs ∧
    serializeFields ((k, .vOid s) :: fs) =
      (k, .vStr s) :: serializeFields fs ∧
    serializeValue (.vDoc fs) = .vDoc (serializeFields fs) ∧
    serialize_doc (.vArr [.vDoc fs]) = .vArr [.vDoc (serializeFields fs)] ∧
    serialize_doc (.vStr s) = .vStr s ∧
    serialize_doc (.vInt n) = .vInt n ∧
    serialize_doc (.vBool b) = .vBool b ∧
    serialize_doc (.vDate t) = .vDate t ∧
    serialize_doc (.vOid s) = .vOid s ∧
    serializeList [.vDate t] = [.vDate t] :=
  ⟨rfl, serialize_doc_clean v, rfl, rfl, rfl, rfl, rfl, rfl, rfl, rfl, rfl,
    rfl⟩

/-- C5 counterexample: a document binding a key to a list that directly
contains a timestamp and an opaque identifier serializes to itself — the
two raw scalars inside the list are NOT rendered as strings, contradicting
the claim's "including timestamps and identifiers that occur as elements of
lists". -/
theorem serialize_doc_counterexample :
    serialize_doc (.vDoc [("stamps", .vArr [.vDate 0, .vOid "abc"])]) =
      .vDoc [("stamps", .vArr [.vDate 0, .vOid "abc"])] ∧
    (Value.vDate 0 = Value.vStr (isoformat 0) → False) ∧
    (Value.vOid "abc" = Value.vStr "abc" → False) :=
  ⟨rfl, fun h => Value.noConfusion h, fun h => Value.noConfusion h⟩
